import Mathlib

/-!
Telemetry Aggregation and Insight Engine: verification development.

Shallow embedding of the analytics helpers of the `glidewise` repository:

* `groupTrendsByInterval` (analytics route, `src/unnamed/part_001`)
* `groupDataByInterval`   (`src/server/src/routes/obd.js`)
* `calculateTrendDirection` (`src/unnamed/part_001`)
* `generateInsights`        (`src/unnamed/part_001`)

Modelling conventions:

* Timestamps are embedded as `Int` milliseconds since the Unix epoch.  The
  JavaScript code builds ISO-8601 string bucket keys (`toISOString().slice …`);
  for a fixed format that string encoding is an injective, order-preserving
  image of the floored timestamp, so keys are modelled directly as the floored
  `Int` timestamp.
* The `6h` and `1w` branches of the source use local-time `Date` accessors
  (`getHours`, `getDay`, …).  The server is modelled as running with a UTC
  timezone (offset 0), matching the UTC alignment all other branches use.
* Numeric metric values are embedded as exact rationals `ℚ`; the claims under
  study are about exact threshold comparisons on small values, not about
  IEEE-754 rounding.  The one place where IEEE-754 semantics is observable —
  `calculateTrendDirection` divides by an average that can be `0`, which in
  JavaScript yields `±Infinity` or `NaN`, never an exception — is embedded by
  an explicit case split, because `ℚ` has no infinities (division by zero in
  `ℚ` would silently return `0`, which is *not* what the JavaScript does).
* Nullable record fields (`ecoScore`, `efficiency`, `engineRPM`,
  `throttlePosition`) are embedded as `Option ℚ`.
* A JavaScript object literal that omits a property (the `raw` branch emits
  `{timestamp, value}` with no `count`) is embedded by an `Option Nat` count
  field holding `none`.
* JavaScript objects iterate string keys in insertion order
  (first-occurrence order for the grouping accumulator); `firstKeys` below
  reproduces exactly that order.
-/

/-- A telemetry/trend data point as consumed by the grouping helpers:
`point.startTime` (resp. `point.timestamp`) and the projected metric value
`point[metric]`.  The storage layer filters nulls (`whereNotNull(metric)`),
so the value is a plain rational here. -/
structure Sample where
  timestamp : Int
  value : ℚ
deriving DecidableEq

/-- One output element of the grouping helpers.  The grouped branch emits
`{timestamp, value: mean, count}`; the `raw` branch emits `{timestamp, value}`
with no `count` property, modelled as `count = none`. -/
structure Bucket where
  timestamp : Int
  value : ℚ
  count : Option Nat
deriving DecidableEq

/-- Floor `t` onto the grid `{a + k*m : k ∈ ℤ}`: the largest grid point `≤ t`
(for `m > 0`).  All four interval keys of the source are of this shape. -/
def floorMult (m a t : Int) : Int := t - (t - a) % m

/-- Key for the 1h case, built by truncating `toISOString` to the hour and
appending minutes/seconds of zero: the start of the UTC hour of the
sample. -/
def key1h : Int → Int := floorMult 3600000 0

/-- Key for the 6h case, `Math.floor(getHours()/6)*6` rebuilt into a date:
the start of the 6-hour block of the sample (hours 0, 6, 12, 18). -/
def key6h : Int → Int := floorMult 21600000 0

/-- Key for the 1d case, built by truncating `toISOString` to the date and
appending a midnight time-of-day: UTC midnight of the day of the sample. -/
def key1d : Int → Int := floorMult 86400000 0

/-- Key for the 1w case, `weekStart.setDate(getDate() - getDay())` then
truncation to the date: the most recent Sunday 00:00.  The epoch
(1970-01-01) was a Thursday, so Sundays are the instants congruent to
3·86400000 modulo 7·86400000. -/
def key1w : Int → Int := floorMult 604800000 259200000

/-- The `switch (interval)` of `groupTrendsByInterval`
(`src/unnamed/part_001`): unknown tokens fall into the `default:` branch,
which computes the *daily* key. -/
def trendIntervalKey (interval : String) : Int → Int :=
  if interval = "1h" then key1h
  else if interval = "6h" then key6h
  else if interval = "1d" then key1d
  else if interval = "1w" then key1w
  else key1d

/-- The `switch (interval)` of `groupDataByInterval`
(`src/server/src/routes/obd.js`): no 1w case, and the `default:` branch
computes the *hourly* key. -/
def obdIntervalKey (interval : String) : Int → Int :=
  if interval = "1h" then key1h
  else if interval = "6h" then key6h
  else if interval = "1d" then key1d
  else key1h

/-- Key admission `if (!grouped[key]) grouped[key] = []`: a key is added to the object the
first time it is seen; later occurrences reuse the existing entry.  JavaScript
objects enumerate (non-index) string keys in insertion order. -/
def insertIfNew (acc : List Int) (k : Int) : List Int :=
  if k ∈ acc then acc else acc ++ [k]

/-- The key list of the accumulator object, in first-occurrence order. -/
def firstKeys (ks : List Int) : List Int := ks.foldl insertIfNew []

/-- The values pushed under key `k`: `grouped[key].push(point[metric])`, in
input order. -/
def bucketValues (f : Int → Int) (data : List Sample) (k : Int) : List ℚ :=
  (data.filter (fun p => f p.timestamp == k)).map Sample.value

/-- One entry of the final `Object.entries(grouped).map`:
`{timestamp, value: sum/length, count: length}`. -/
def bucketFor (f : Int → Int) (data : List Sample) (k : Int) : Bucket :=
  let vs := bucketValues f data k
  ⟨k, vs.sum / (vs.length : ℚ), some vs.length⟩

/-- The grouped (non-`raw`) path shared by both grouping helpers: accumulate
values per key, then emit one averaged bucket per key in insertion order. -/
def groupByKey (f : Int → Int) (data : List Sample) : List Bucket :=
  (firstKeys (data.map (fun p => f p.timestamp))).map (bucketFor f data)

/-- Aggregator `groupTrendsByInterval(data, interval, metric)` from
`src/unnamed/part_001` (the metric projection has already happened in
`Sample.value`). -/
def groupTrendsByInterval (interval : String) (data : List Sample) : List Bucket :=
  if interval = "raw" then
    data.map (fun p => ⟨p.timestamp, p.value, none⟩)
  else
    groupByKey (trendIntervalKey interval) data

/-- Aggregator `groupDataByInterval(data, interval, metric)` from
`src/server/src/routes/obd.js`. -/
def groupDataByInterval (interval : String) (data : List Sample) : List Bucket :=
  if interval = "raw" then
    data.map (fun p => ⟨p.timestamp, p.value, none⟩)
  else
    groupByKey (obdIntervalKey interval) data

/-- JavaScript `data.slice(0, e)` for an `Int` end index `e` (a negative end index counts
from the end of the array, clamped at `0`). -/
def jsSliceTo {α : Type} (l : List α) (e : Int) : List α :=
  if e < 0 then l.take ((l.length : Int) + e).toNat else l.take e.toNat

/-- Recent window `data.slice(-5).map(d => d.value)` from `calculateTrendDirection`. -/
def recentValues (data : List Bucket) : List ℚ :=
  (data.drop (data.length - 5)).map Bucket.value

/-- Older window `data.slice(0, Math.min(5, data.length - 5)).map(d => d.value)`. -/
def olderValues (data : List Bucket) : List ℚ :=
  (jsSliceTo data (min 5 ((data.length : Int) - 5))).map Bucket.value

/-- Mean of the recent window (`recentAvg` in the source). -/
def recentAvg (data : List Bucket) : ℚ :=
  (recentValues data).sum / ((recentValues data).length : ℚ)

/-- Mean of the older window (`olderAvg` in the source). -/
def olderAvg (data : List Bucket) : ℚ :=
  (olderValues data).sum / ((olderValues data).length : ℚ)

/-- Percent change `((recentAvg - olderAvg) / olderAvg) * 100`, meaningful when
`olderAvg ≠ 0` (the embedding handles `olderAvg = 0` separately, see
`calculateTrendDirection`). -/
def percentChange (data : List Bucket) : ℚ :=
  ((recentAvg data - olderAvg data) / olderAvg data) * 100

/-- Trend classifier `calculateTrendDirection(data)` from `src/unnamed/part_001`.

The source computes `change = ((recentAvg - olderAvg) / olderAvg) * 100`
unconditionally.  When `olderAvg = 0`, IEEE-754 gives `change = +∞` (if
`recentAvg > 0`), `-∞` (if `recentAvg < 0`) or `NaN` (if `recentAvg = 0`);
`∞ > 5` is true, `-∞ < -5` is true, and every comparison with `NaN` is
false.  `ℚ` has no infinities, so that behaviour is embedded by the explicit
`olderAvg = 0` case below — it is a transliteration of the IEEE-754 outcome
of the very same formula, not an extra guard present in the source. -/
def calculateTrendDirection (data : List Bucket) : String :=
  if data.length < 2 then "stable"
  else if (recentValues data).length = 0 ∨ (olderValues data).length = 0 then "stable"
  else if olderAvg data = 0 then
    if 0 < recentAvg data then "improving"
    else if recentAvg data < 0 then "declining"
    else "stable"
  else if 5 < percentChange data then "improving"
  else if percentChange data < -5 then "declining"
  else "stable"

/-- Trip record fields consumed by `generateInsights`; both are nullable. -/
structure Trip where
  ecoScore : Option ℚ
  efficiency : Option ℚ
deriving DecidableEq

/-- OBD telemetry fields consumed by `generateInsights`; both are nullable. -/
structure OBDSample where
  engineRPM : Option ℚ
  throttlePosition : Option ℚ
deriving DecidableEq

/-- An insight `{type, title, message, priority}` as pushed by
`generateInsights`. -/
structure Insight where
  type : String
  title : String
  message : String
  priority : String
deriving DecidableEq

/-- The fallback pushed when no rule fired. -/
def goodProgressInsight : Insight :=
  ⟨"info", "Good Progress",
   "Your driving patterns look good. Continue monitoring for further improvements.",
   "low"⟩

/-- Eco-score rule: mean of the non-null `ecoScore`s; `< 60` warns, else
`> 80` congratulates (an `else if` in the source, so at most one fires). -/
def ecoScoreInsights (trips : List Trip) : List Insight :=
  if 0 < trips.length then
    let ecoScores := (trips.map Trip.ecoScore).filterMap id
    if 0 < ecoScores.length then
      let avgEcoScore := ecoScores.sum / (ecoScores.length : ℚ)
      if avgEcoScore < 60 then
        [⟨"warning", "Low Eco Score",
          "Your average eco score is below 60. Focus on smooth acceleration and braking to improve.",
          "high"⟩]
      else if 80 < avgEcoScore then
        [⟨"success", "Excellent Driving",
          "Great job! Your eco score is consistently high. Keep up the good driving habits.",
          "low"⟩]
      else []
    else []
  else []

/-- Efficiency rule: mean of the non-null `efficiency` values; `> 10` warns. -/
def efficiencyInsights (trips : List Trip) : List Insight :=
  if 0 < trips.length then
    let efficiencies := (trips.map Trip.efficiency).filterMap id
    if 0 < efficiencies.length then
      let avgEfficiency := efficiencies.sum / (efficiencies.length : ℚ)
      if 10 < avgEfficiency then
        [⟨"warning", "High Fuel Consumption",
          "Your fuel efficiency is above 10 L/100km. Consider adjusting your driving style.",
          "medium"⟩]
      else []
    else []
  else []

/-- Filter predicate `d.engineRPM && d.engineRPM > 3000`: the first conjunct is JavaScript
truthiness — `null`/`undefined` and `0` are falsy. -/
def rpmHigh (d : OBDSample) : Bool :=
  match d.engineRPM with
  | some r => decide (r ≠ 0) && decide (3000 < r)
  | none => false

/-- Filter predicate `d.throttlePosition && d.throttlePosition > 80`, same truthiness. -/
def throttleAggressive (d : OBDSample) : Bool :=
  match d.throttlePosition with
  | some p => decide (p ≠ 0) && decide (80 < p)
  | none => false

/-- High-RPM rule: `highRPMPercentage = highRPMCount / obdData.length * 100`
— note the denominator is the number of *all* telemetry rows. -/
def highRPMInsights (obdData : List OBDSample) : List Insight :=
  if 0 < obdData.length then
    let highRPMPercentage :=
      (((obdData.filter rpmHigh).length : ℚ) / (obdData.length : ℚ)) * 100
    if 30 < highRPMPercentage then
      [⟨"tip", "High RPM Driving",
        "You\x27re frequently driving at high RPM. Shift to higher gears earlier to improve efficiency.",
        "medium"⟩]
    else []
  else []

/-- Aggressive-throttle rule, denominator again `obdData.length`. -/
def aggressiveThrottleInsights (obdData : List OBDSample) : List Insight :=
  if 0 < obdData.length then
    let aggressiveThrottlePercentage :=
      (((obdData.filter throttleAggressive).length : ℚ) / (obdData.length : ℚ)) * 100
    if 20 < aggressiveThrottlePercentage then
      [⟨"tip", "Aggressive Acceleration",
        "Gentle acceleration can improve fuel efficiency by up to 20%.",
        "medium"⟩]
    else []
  else []

/-- The insights pushed by rules 1–4, in source push order. -/
def ruleInsights (trips : List Trip) (obdData : List OBDSample) : List Insight :=
  ecoScoreInsights trips ++ efficiencyInsights trips ++
    highRPMInsights obdData ++ aggressiveThrottleInsights obdData

/-- Insight generator `generateInsights(trips, obdData)` from `src/unnamed/part_001`:
rules 1–4 in order, then the fallback iff nothing fired. -/
def generateInsights (trips : List Trip) (obdData : List OBDSample) : List Insight :=
  let insights := ruleInsights trips obdData
  if insights.length = 0 then [goodProgressInsight] else insights

/-- The 10-bucket improving-trend scenario from section 8 of the spec:
values `[50,50,50,50,50,70,70,70,70,70]`. -/
def improvingBuckets : List Bucket :=
  [⟨0, 50, none⟩, ⟨1, 50, none⟩, ⟨2, 50, none⟩, ⟨3, 50, none⟩, ⟨4, 50, none⟩,
   ⟨5, 70, none⟩, ⟨6, 70, none⟩, ⟨7, 70, none⟩, ⟨8, 70, none⟩, ⟨9, 70, none⟩]

/-- Ten buckets whose older window means exactly 0 and whose recent window
is positive: `[0,0,0,0,0,10,10,10,10,10]`. -/
def zeroOlderBuckets : List Bucket :=
  [⟨0, 0, none⟩, ⟨1, 0, none⟩, ⟨2, 0, none⟩, ⟨3, 0, none⟩, ⟨4, 0, none⟩,
   ⟨5, 10, none⟩, ⟨6, 10, none⟩, ⟨7, 10, none⟩, ⟨8, 10, none⟩, ⟨9, 10, none⟩]

/-- Telemetry with one high-RPM sample, one moderate-RPM sample and two
null-RPM samples: the non-null high-RPM ratio is 1/2 but the ratio over all
rows is 1/4. -/
def rpmMixedSamples : List OBDSample :=
  [⟨some 3500, none⟩, ⟨some 2000, none⟩, ⟨none, none⟩, ⟨none, none⟩]

/-- Two samples inside the same UTC hour (10:15 and 10:45 on 1970-01-01),
with values 10 and 20. -/
def hourSamples : List Sample := [⟨36900000, 10⟩, ⟨38700000, 20⟩]

/-- A single sample at 1970-01-02 01:00 UTC, used to probe the `default:`
branch of the interval switch. -/
def oneSample : List Sample := [⟨90000000, 4⟩]

/-! ## Generic lemmas about the grouping accumulator -/

theorem mem_insertIfNew {acc : List Int} {k x : Int} :
    x ∈ insertIfNew acc k ↔ x ∈ acc ∨ x = k := by
  unfold insertIfNew
  split
  · constructor
    · exact Or.inl
    · rintro (h | rfl)
      · exact h
      · assumption
  · simp

theorem mem_foldl_insertIfNew (ks : List Int) (acc : List Int) (x : Int) :
    x ∈ ks.foldl insertIfNew acc ↔ x ∈ acc ∨ x ∈ ks := by
  induction ks generalizing acc with
  | nil => simp
  | cons k ks ih => simp [List.foldl_cons, ih, mem_insertIfNew, or_assoc]

theorem nodup_insertIfNew {acc : List Int} (h : acc.Nodup) (k : Int) :
    (insertIfNew acc k).Nodup := by
  unfold insertIfNew
  split
  · exact h
  · simp_all [List.nodup_append]

theorem nodup_foldl_insertIfNew (ks : List Int) (acc : List Int) (h : acc.Nodup) :
    (ks.foldl insertIfNew acc).Nodup := by
  induction ks generalizing acc with
  | nil => exact h
  | cons k ks ih => exact ih _ (nodup_insertIfNew h k)

theorem pairwise_foldl_insertIfNew (ks : List Int) :
    ∀ acc : List Int,
      acc.Pairwise (· < ·) →
      (∀ x ∈ acc, ∀ k ∈ ks, x ≤ k) →
      ks.Pairwise (· ≤ ·) →
      (ks.foldl insertIfNew acc).Pairwise (· < ·) := by
  induction ks with
  | nil =>
    intro acc ha _ _
    exact ha
  | cons k ks ih =>
    intro acc ha hb hk
    rw [List.foldl_cons]
    have hk' := List.pairwise_cons.mp hk
    apply ih
    · unfold insertIfNew
      split
      · exact ha
      · rw [List.pairwise_append]
        refine ⟨ha, List.pairwise_singleton _ _, ?_⟩
        intro a haa b hbb
        rw [List.mem_singleton] at hbb
        subst hbb
        rcases lt_or_eq_of_le (hb a haa b (List.mem_cons_self b ks)) with h | rfl
        · exact h
        · exact absurd haa (by assumption)
    · intro x hx k' hmk
      rcases mem_insertIfNew.mp hx with h | rfl
      · exact hb x h k' (List.mem_cons_of_mem _ hmk)
      · exact hk'.1 k' hmk
    · exact hk'.2

theorem firstKeys_mem (ks : List Int) (x : Int) : x ∈ firstKeys ks ↔ x ∈ ks := by
  unfold firstKeys
  rw [mem_foldl_insertIfNew]
  simp

theorem firstKeys_nodup (ks : List Int) : (firstKeys ks).Nodup :=
  nodup_foldl_insertIfNew ks [] List.nodup_nil

theorem firstKeys_pairwise {ks : List Int} (h : ks.Pairwise (· ≤ ·)) :
    (firstKeys ks).Pairwise (· < ·) :=
  pairwise_foldl_insertIfNew ks [] List.Pairwise.nil (by simp) h

/-! ## Counting lemmas: each sample lands in exactly one bucket -/

theorem sum_indicator_eq_count (x : Int) :
    ∀ ks : List Int, (ks.map (fun k => if x = k then 1 else 0)).sum = ks.count x := by
  intro ks
  induction ks with
  | nil => simp
  | cons k ks ih =>
    simp only [List.map_cons, List.sum_cons, List.count_cons, ih, beq_iff_eq]
    by_cases h : x = k
    · subst h; simp [Nat.add_comm]
    · simp [h, Ne.symm h]

theorem sum_counts_eq_length {α : Type} (g : α → Int) :
    ∀ (data : List α) (ks : List Int), ks.Nodup → (∀ p ∈ data, g p ∈ ks) →
      (ks.map (fun k => (data.filter (fun p => g p == k)).length)).sum = data.length := by
  intro data
  induction data with
  | nil => simp
  | cons p data ih =>
    intro ks hnd hmem
    have hstep : ∀ k ∈ ks,
        ((p :: data).filter (fun q => g q == k)).length
          = (if g p = k then 1 else 0) + (data.filter (fun q => g q == k)).length := by
      intro k _
      by_cases h : g p = k
      · simp [List.filter_cons, h, Nat.add_comm]
      · simp [List.filter_cons, h]
    rw [List.map_congr_left hstep]
    have hsplit : (ks.map fun k =>
          (if g p = k then 1 else 0) + (data.filter (fun q => g q == k)).length).sum
        = (ks.map fun k => if g p = k then 1 else 0).sum
          + (ks.map fun k => (data.filter (fun q => g q == k)).length).sum := by
      induction ks with
      | nil => simp
      | cons k ks ihk => simp [ihk]; omega
    rw [hsplit, sum_indicator_eq_count,
      List.count_eq_one_of_mem hnd (hmem p (List.mem_cons_self p data)),
      ih ks hnd fun q hq => hmem q (List.mem_cons_of_mem p hq)]
    simp [Nat.add_comm]

/-! ## Properties of the interval key functions -/

theorem floorMult_le {m : Int} (hm : 0 < m) (a t : Int) : floorMult m a t ≤ t := by
  have := Int.emod_nonneg (t - a) (ne_of_gt hm)
  unfold floorMult
  omega

theorem lt_floorMult_add {m : Int} (hm : 0 < m) (a t : Int) :
    t < floorMult m a t + m := by
  have := Int.emod_lt_of_pos (t - a) hm
  unfold floorMult
  omega

theorem floorMult_emod (m a t : Int) : (floorMult m a t - a) % m = 0 := by
  have h : floorMult m a t - a = (t - a) - (t - a) % m := by
    unfold floorMult
    ring
  rw [h, Int.sub_emod, Int.emod_emod_of_dvd _ dvd_rfl, sub_self, Int.zero_emod]

theorem floorMult_mono {m : Int} (hm : 0 < m) (a : Int) {t t' : Int} (h : t ≤ t') :
    floorMult m a t ≤ floorMult m a t' := by
  have e1 := Int.ediv_add_emod (t - a) m
  have e2 := Int.ediv_add_emod (t' - a) m
  have hq : (t - a) / m ≤ (t' - a) / m := Int.ediv_le_ediv hm (by omega)
  have hmul := mul_le_mul_of_nonneg_left hq (le_of_lt hm)
  unfold floorMult
  linarith

theorem trendIntervalKey_mono (interval : String) {t t' : Int} (h : t ≤ t') :
    trendIntervalKey interval t ≤ trendIntervalKey interval t' := by
  unfold trendIntervalKey key1h key6h key1d key1w
  split_ifs <;> exact floorMult_mono (by norm_num) _ h

theorem obdIntervalKey_mono (interval : String) {t t' : Int} (h : t ≤ t') :
    obdIntervalKey interval t ≤ obdIntervalKey interval t' := by
  unfold obdIntervalKey key1h key6h key1d
  split_ifs <;> exact floorMult_mono (by norm_num) _ h

/-! ## Structural theorems about the grouped path -/

theorem groupByKey_timestamps (f : Int → Int) (data : List Sample) :
    (groupByKey f data).map Bucket.timestamp
      = firstKeys (data.map fun p => f p.timestamp) := by
  unfold groupByKey
  rw [List.map_map]
  have : (Bucket.timestamp ∘ bucketFor f data) = id := by
    funext k
    simp [bucketFor]
  rw [this, List.map_id]

theorem groupByKey_sum_counts (f : Int → Int) (data : List Sample) :
    ((groupByKey f data).map (fun b => b.count.getD 0)).sum = data.length := by
  unfold groupByKey
  rw [List.map_map]
  have hfun : ((fun b => Option.getD b.count 0) ∘ bucketFor f data)
      = fun k => (data.filter (fun p => f p.timestamp == k)).length := by
    funext k
    simp [bucketFor, bucketValues]
  rw [hfun]
  exact sum_counts_eq_length (fun p => f p.timestamp) data _
    (firstKeys_nodup _)
    (fun p hp => (firstKeys_mem _ _).mpr
      (List.mem_map_of_mem (fun p => f p.timestamp) hp))

theorem groupByKey_mem (f : Int → Int) (data : List Sample) {b : Bucket}
    (hb : b ∈ groupByKey f data) :
    b = bucketFor f data b.timestamp ∧
      b.count = some (bucketValues f data b.timestamp).length ∧
      bucketValues f data b.timestamp ≠ [] ∧
      b.value = (bucketValues f data b.timestamp).sum
        / ((bucketValues f data b.timestamp).length : ℚ) := by
  unfold groupByKey at hb
  rcases List.mem_map.mp hb with ⟨k, hk, rfl⟩
  have hts : (bucketFor f data k).timestamp = k := by simp [bucketFor]
  rw [hts]
  have hmem : k ∈ data.map fun p => f p.timestamp := (firstKeys_mem _ _).mp hk
  rcases List.mem_map.mp hmem with ⟨p, hp, rfl⟩
  have hne : bucketValues f data (f p.timestamp) ≠ [] := by
    unfold bucketValues
    simp only [ne_eq, List.map_eq_nil_iff, List.filter_eq_nil_iff, not_forall]
    exact ⟨p, hp, by simp⟩
  exact ⟨rfl, by simp [bucketFor], hne, by simp [bucketFor]⟩

theorem groupByKey_sorted (f : Int → Int) (hf : ∀ {t t' : Int}, t ≤ t' → f t ≤ f t')
    (data : List Sample)
    (hsorted : data.Pairwise (fun p q => p.timestamp ≤ q.timestamp)) :
    (groupByKey f data).Pairwise (fun b b' => b.timestamp < b'.timestamp) := by
  have hkeys : (data.map fun p => f p.timestamp).Pairwise (· ≤ ·) :=
    List.pairwise_map.mpr (hsorted.imp fun h => hf h)
  have hp := firstKeys_pairwise hkeys
  unfold groupByKey
  rw [List.pairwise_map]
  exact hp.imp fun {k k'} h => by simpa [bucketFor] using h

/-! ## Helper lemmas about the trend windows -/

theorem mean_const {l : List ℚ} {c : ℚ} (h : ∀ v ∈ l, v = c) (hl : l.length ≠ 0) :
    l.sum / (l.length : ℚ) = c := by
  rw [List.sum_eq_card_nsmul l c h, nsmul_eq_mul]
  have hc : ((l.length : ℚ)) ≠ 0 := Nat.cast_ne_zero.mpr hl
  field_simp

theorem recentValues_length (data : List Bucket) :
    (recentValues data).length = data.length - (data.length - 5) := by
  rw [recentValues, List.length_map, List.length_drop]

theorem recentValues_ne_nil {data : List Bucket} (h : 0 < data.length) :
    (recentValues data).length ≠ 0 := by
  rw [recentValues_length]
  omega

theorem mem_recentValues {data : List Bucket} {v : ℚ} (hv : v ∈ recentValues data) :
    ∃ b ∈ data, b.value = v := by
  rcases List.mem_map.mp hv with ⟨b, hb, rfl⟩
  exact ⟨b, List.mem_of_mem_drop hb, rfl⟩

theorem mem_olderValues {data : List Bucket} {v : ℚ} (hv : v ∈ olderValues data) :
    ∃ b ∈ data, b.value = v := by
  rcases List.mem_map.mp hv with ⟨b, hb, rfl⟩
  rw [jsSliceTo] at hb
  split at hb <;> exact ⟨b, List.mem_of_mem_take hb, rfl⟩

/-! ## C1 -/

/-- C1 counterexample: on buckets `[0,0,0,0,0,10,10,10,10,10]` the older
window is non-empty with mean exactly 0, yet `calculateTrendDirection` does
not return `"stable"` (JavaScript computes `(10 - 0)/0 * 100 = Infinity`,
and `Infinity > 5` classifies `"improving"`). -/
theorem C1_counterexample :
    2 ≤ zeroOlderBuckets.length ∧ olderValues zeroOlderBuckets ≠ [] ∧
      olderAvg zeroOlderBuckets = 0 ∧
      calculateTrendDirection zeroOlderBuckets ≠ "stable" := by
  have ho : olderValues zeroOlderBuckets = [0, 0, 0, 0, 0] := rfl
  have hr : recentValues zeroOlderBuckets = [10, 10, 10, 10, 10] := rfl
  have hl : zeroOlderBuckets.length = 10 := rfl
  refine ⟨by rw [hl]; norm_num, by rw [ho]; simp, ?_, ?_⟩
  · rw [olderAvg, ho]
    norm_num
  · rw [calculateTrendDirection]
    rw [if_neg (by rw [hl]; norm_num), if_neg (by rw [hr, ho]; simp),
      if_pos (by rw [olderAvg, ho]; norm_num),
      if_pos (by rw [recentAvg, hr]; norm_num)]
    decide

/-- C1 (amended): when the older window is non-empty with mean exactly 0,
the JavaScript division by zero produces Infinity, negative Infinity or NaN,
so classification follows the sign of the recent mean instead of being
`"stable"`. -/
theorem C1_zero_older_mean (data : List Bucket) (h2 : 2 ≤ data.length)
    (hne : olderValues data ≠ []) (h0 : olderAvg data = 0) :
    calculateTrendDirection data =
      (if 0 < recentAvg data then "improving"
       else if recentAvg data < 0 then "declining"
       else "stable") := by
  have hrl : (recentValues data).length ≠ 0 := recentValues_ne_nil (by omega)
  have hol : (olderValues data).length ≠ 0 := by
    simpa [List.length_eq_zero] using hne
  rw [calculateTrendDirection, if_neg (by omega),
    if_neg (by push_neg; exact ⟨hrl, hol⟩), if_pos h0]

/-- C1 witness: the amended statement applied to `zeroOlderBuckets`. -/
theorem C1_witness :
    calculateTrendDirection zeroOlderBuckets =
      (if 0 < recentAvg zeroOlderBuckets then "improving"
       else if recentAvg zeroOlderBuckets < 0 then "declining"
       else "stable") :=
  C1_zero_older_mean zeroOlderBuckets (by decide)
    (by decide)
    (by rw [olderAvg, show olderValues zeroOlderBuckets = [0, 0, 0, 0, 0] from rfl]
        norm_num)

/-! ## C6 -/

/-- C6: with at least 2 buckets, a non-empty older window and a non-zero
older mean, classification is `"improving"` iff `percentChange > 5`,
`"declining"` iff `percentChange < -5` and `"stable"` otherwise; moreover a
perfectly flat sequence always classifies `"stable"`, and the scenario
`[50,50,50,50,50,70,70,70,70,70]` classifies `"improving"`. -/
theorem C6_trend_classification :
    (∀ data : List Bucket, 2 ≤ data.length → olderValues data ≠ [] →
      olderAvg data ≠ 0 →
      ((calculateTrendDirection data = "improving" ↔ 5 < percentChange data) ∧
       (calculateTrendDirection data = "declining" ↔ percentChange data < -5) ∧
       (calculateTrendDirection data = "stable" ↔
         -5 ≤ percentChange data ∧ percentChange data ≤ 5))) ∧
    (∀ (c : ℚ) (data : List Bucket), (∀ b ∈ data, b.value = c) →
      calculateTrendDirection data = "stable") ∧
    calculateTrendDirection improvingBuckets = "improving" := by
  have s1 : ("declining" : String) ≠ "improving" := by decide
  have s2 : ("stable" : String) ≠ "improving" := by decide
  have s3 : ("improving" : String) ≠ "declining" := by decide
  have s4 : ("stable" : String) ≠ "declining" := by decide
  have s5 : ("improving" : String) ≠ "stable" := by decide
  have s6 : ("declining" : String) ≠ "stable" := by decide
  refine ⟨?_, ?_, ?_⟩
  · intro data h2 hne hnz
    have hrl : (recentValues data).length ≠ 0 := recentValues_ne_nil (by omega)
    have hol : (olderValues data).length ≠ 0 := by
      simpa [List.length_eq_zero] using hne
    rw [calculateTrendDirection, if_neg (by omega),
      if_neg (by push_neg; exact ⟨hrl, hol⟩), if_neg hnz]
    refine ⟨?_, ?_, ?_⟩
    · split_ifs with hA hB
      · simp [hA]
      · simp [s1, hA]
      · simp [s2, hA]
    · split_ifs with hA hB
      · constructor
        · intro h
          exact absurd h s3
        · intro h
          linarith
      · simp [hB]
      · simp [s4, hB]
    · split_ifs with hA hB
      · constructor
        · intro h
          exact absurd h s5
        · rintro ⟨-, hc⟩
          linarith
      · constructor
        · intro h
          exact absurd h s6
        · rintro ⟨hc, -⟩
          linarith
      · rw [eq_self_iff_true, true_iff]
        exact ⟨not_lt.mp hB, not_lt.mp hA⟩
  · intro c data hall
    rw [calculateTrendDirection]
    by_cases h2 : data.length < 2
    · rw [if_pos h2]
    · rw [if_neg h2]
      by_cases hz : (recentValues data).length = 0 ∨ (olderValues data).length = 0
      · rw [if_pos hz]
      · rw [if_neg hz]
        push_neg at hz
        have hra : recentAvg data = c := by
          rw [recentAvg]
          exact mean_const
            (fun v hv => by
              rcases mem_recentValues hv with ⟨b, hb, rfl⟩
              exact hall b hb) hz.1
        have hoa : olderAvg data = c := by
          rw [olderAvg]
          exact mean_const
            (fun v hv => by
              rcases mem_olderValues hv with ⟨b, hb, rfl⟩
              exact hall b hb) hz.2
        by_cases hc : c = 0
        · rw [if_pos (by rw [hoa, hc]), hra, hc]
          norm_num
        · have hpc : percentChange data = 0 := by
            rw [percentChange, hra, hoa, sub_self, zero_div, zero_mul]
          rw [if_neg (by rw [hoa]; exact hc), if_neg (by rw [hpc]; norm_num),
            if_neg (by rw [hpc]; norm_num)]
  · have hr : recentValues improvingBuckets = [70, 70, 70, 70, 70] := rfl
    have ho : olderValues improvingBuckets = [50, 50, 50, 50, 50] := rfl
    have hl : improvingBuckets.length = 10 := rfl
    norm_num [calculateTrendDirection, recentAvg, olderAvg, percentChange, hr, ho, hl]

/-- C6 witness: the classification equivalence applied to the improving
scenario, and the flat-sequence rule applied to a constant two-bucket list. -/
theorem C6_witness :
    (calculateTrendDirection improvingBuckets = "improving" ↔
      5 < percentChange improvingBuckets) ∧
      calculateTrendDirection [⟨0, 7, none⟩, ⟨1, 7, none⟩] = "stable" :=
  ⟨(C6_trend_classification.1 improvingBuckets (by decide)
      (by decide)
      (by rw [olderAvg, show olderValues improvingBuckets = [50, 50, 50, 50, 50] from rfl]
          norm_num)).1,
   C6_trend_classification.2.1 7 [⟨0, 7, none⟩, ⟨1, 7, none⟩]
      (by intro b hb; fin_cases hb <;> rfl)⟩

/-! ## C2 -/

/-- C2 counterexample: in `rpmMixedSamples` the high-RPM ratio over samples
with non-null `engineRPM` is `1/2 > 0.30`, yet the high-RPM rule does not
fire, because the code divides by the number of *all* telemetry rows
(`1/4`, i.e. 25% which is not above 30%). -/
theorem C2_counterexample :
    (3 : ℚ) / 10 <
      ((rpmMixedSamples.filter rpmHigh).length : ℚ)
        / ((rpmMixedSamples.filter (fun d => d.engineRPM.isSome)).length : ℚ) ∧
      highRPMInsights rpmMixedSamples = [] := by
  have h1 : rpmMixedSamples.filter rpmHigh = [⟨some 3500, none⟩] := by
    simp [rpmMixedSamples, rpmHigh, List.filter]
    norm_num
  have h2 : rpmMixedSamples.filter (fun d => d.engineRPM.isSome)
      = [⟨some 3500, none⟩, ⟨some 2000, none⟩] := rfl
  have hlen : rpmMixedSamples.length = 4 := rfl
  constructor
  · rw [h1, h2]
    norm_num
  · rw [highRPMInsights, if_pos (by rw [hlen]; norm_num)]
    rw [if_neg (by rw [h1, hlen]; norm_num)]

/-- C2 (amended): both rules compute their ratio with the count of *all*
telemetry rows as denominator: the high-RPM rule fires iff
`highRPMCount / obdData.length × 100 > 30`, the aggressive-throttle rule
fires iff `aggressiveThrottleCount / obdData.length × 100 > 20`. -/
theorem C2_ratio_denominators (obdData : List OBDSample) (h : obdData ≠ []) :
    (highRPMInsights obdData ≠ [] ↔
      30 < (((obdData.filter rpmHigh).length : ℚ) / (obdData.length : ℚ)) * 100) ∧
    (aggressiveThrottleInsights obdData ≠ [] ↔
      20 < (((obdData.filter throttleAggressive).length : ℚ)
        / (obdData.length : ℚ)) * 100) := by
  have hpos : 0 < obdData.length := List.length_pos.mpr h
  constructor
  · rw [highRPMInsights, if_pos hpos]
    by_cases hc : 30 < (((obdData.filter rpmHigh).length : ℚ) / (obdData.length : ℚ)) * 100
    · simp [hc]
    · simp [hc]
  · rw [aggressiveThrottleInsights, if_pos hpos]
    by_cases hc : 20 < (((obdData.filter throttleAggressive).length : ℚ)
        / (obdData.length : ℚ)) * 100
    · simp [hc]
    · simp [hc]

/-- C2 witness: the amended ratio rule applied to a single all-high-RPM
sample. -/
theorem C2_witness :
    (highRPMInsights [⟨some 3500, none⟩] ≠ [] ↔
      30 < ((([⟨some 3500, none⟩] : List OBDSample).filter rpmHigh).length : ℚ)
        / (([⟨some 3500, none⟩] : List OBDSample).length : ℚ) * 100) ∧
    (aggressiveThrottleInsights [⟨some 3500, none⟩] ≠ [] ↔
      20 < ((([⟨some 3500, none⟩] : List OBDSample).filter throttleAggressive).length : ℚ)
        / (([⟨some 3500, none⟩] : List OBDSample).length : ℚ) * 100) :=
  C2_ratio_denominators [⟨some 3500, none⟩] (by decide)

/-! ## C3 -/

/-- C3 counterexample: the unknown interval token `"2h"` is not rejected —
`groupTrendsByInterval` silently buckets through the daily default branch
and returns ordinary bucketed output. -/
theorem C3_counterexample :
    groupTrendsByInterval "2h" [⟨90000000, 4⟩] = [⟨86400000, 4, some 1⟩] := by
  have hk : firstKeys [trendIntervalKey "2h" 90000000] = [86400000] := rfl
  norm_num [groupTrendsByInterval, groupByKey, hk, bucketFor,
    show bucketValues (trendIntervalKey "2h") [⟨90000000, 4⟩] 86400000 = [4] from rfl,
    show ¬ ("2h" = "raw") from by decide]

/-- C3 (amended): an interval token outside raw/1h/6h/1d/1w signals no
error; it falls into the default branch, which buckets daily in
`groupTrendsByInterval` and hourly in `groupDataByInterval`. -/
theorem C3_unknown_token_fallback (interval : String) (data : List Sample)
    (h0 : interval ≠ "raw") (h1 : interval ≠ "1h") (h2 : interval ≠ "6h")
    (h3 : interval ≠ "1d") (h4 : interval ≠ "1w") :
    groupTrendsByInterval interval data = groupByKey key1d data ∧
      groupDataByInterval interval data = groupByKey key1h data := by
  constructor
  · rw [groupTrendsByInterval, if_neg h0]
    unfold trendIntervalKey
    rw [if_neg h1, if_neg h2, if_neg h3, if_neg h4]
  · rw [groupDataByInterval, if_neg h0]
    unfold obdIntervalKey
    rw [if_neg h1, if_neg h2, if_neg h3]

/-- C3 witness: the fallback behaviour at the concrete unknown token
`"2h"`. -/
theorem C3_witness :
    groupTrendsByInterval "2h" oneSample = groupByKey key1d oneSample ∧
      groupDataByInterval "2h" oneSample = groupByKey key1h oneSample :=
  C3_unknown_token_fallback "2h" oneSample (by decide) (by decide) (by decide)
    (by decide) (by decide)

/-! ## C4 -/

/-- C4 counterexample: the raw branch emits objects without any count
property (modelled as `none`), so the emitted count is not `1`. -/
theorem C4_counterexample :
    (groupTrendsByInterval "raw" [⟨5, 1⟩]).map Bucket.count ≠ [some 1] := by
  decide

/-- C4 (amended): raw aggregation is an order-preserving passthrough —
`len(S)` buckets, the i-th keeping the i-th sample timestamp and value —
but the emitted objects carry no count field at all (`none`), rather than
`count == 1`; both route helpers behave identically on raw input. -/
theorem C4_raw_passthrough (S : List Sample) :
    (groupTrendsByInterval "raw" S).length = S.length ∧
    (∀ i : Nat, (groupTrendsByInterval "raw" S)[i]?
      = (S[i]?).map fun p => ⟨p.timestamp, p.value, none⟩) ∧
    groupDataByInterval "raw" S = groupTrendsByInterval "raw" S := by
  have hraw : groupTrendsByInterval "raw" S
      = S.map (fun p => ⟨p.timestamp, p.value, none⟩) := by
    rw [groupTrendsByInterval, if_pos rfl]
  have hraw2 : groupDataByInterval "raw" S
      = S.map (fun p => ⟨p.timestamp, p.value, none⟩) := by
    rw [groupDataByInterval, if_pos rfl]
  refine ⟨?_, ?_, ?_⟩
  · rw [hraw, List.length_map]
  · intro i
    rw [hraw, List.getElem?_map]
  · rw [hraw, hraw2]

/-! ## C5 -/

/-- C5: for every supported non-raw interval token and non-empty input, the
counts of the emitted buckets sum to the input length, no emitted bucket has
count 0, and each sample key matches exactly one emitted bucket. -/
theorem C5_bucket_coverage (interval : String)
    (hint : interval ∈ (["1h", "6h", "1d", "1w"] : List String))
    (data : List Sample) (hne : data ≠ []) :
    (((groupTrendsByInterval interval data).map (fun b => b.count.getD 0)).sum
      = data.length) ∧
    (∀ b ∈ groupTrendsByInterval interval data, b.count ≠ some 0) ∧
    (∀ p ∈ data,
      ((groupTrendsByInterval interval data).map Bucket.timestamp).count
        (trendIntervalKey interval p.timestamp) = 1) := by
  have hraw : interval ≠ "raw" := by
    simp only [List.mem_cons, List.mem_singleton] at hint
    rcases hint with rfl | rfl | rfl | hint
    · decide
    · decide
    · decide
    · simp at hint
      subst hint
      decide
  rw [groupTrendsByInterval, if_neg hraw]
  refine ⟨groupByKey_sum_counts _ _, ?_, ?_⟩
  · intro b hb
    obtain ⟨-, hcount, hvne, -⟩ := groupByKey_mem _ _ hb
    have hlen : (bucketValues (trendIntervalKey interval) data b.timestamp).length ≠ 0 := by
      simpa [List.length_eq_zero] using hvne
    rw [hcount]
    intro hcontr
    exact hlen (Option.some.inj hcontr)
  · intro p hp
    rw [groupByKey_timestamps]
    exact List.count_eq_one_of_mem (firstKeys_nodup _)
      ((firstKeys_mem _ _).mpr
        (List.mem_map_of_mem (fun p => trendIntervalKey interval p.timestamp) hp))

/-- C5 witness: bucket coverage on the two-sample hourly input. -/
theorem C5_witness :
    (((groupTrendsByInterval "1h" hourSamples).map (fun b => b.count.getD 0)).sum
      = hourSamples.length) ∧
    (∀ b ∈ groupTrendsByInterval "1h" hourSamples, b.count ≠ some 0) ∧
    (∀ p ∈ hourSamples,
      ((groupTrendsByInterval "1h" hourSamples).map Bucket.timestamp).count
        (trendIntervalKey "1h" p.timestamp) = 1) :=
  C5_bucket_coverage "1h" (by decide) hourSamples (by decide)

/-! ## C7 -/

/-- C7: empty trips and telemetry are not an error — the generator returns
exactly the single fallback Info "Good Progress" with priority low; and in
general whenever rules 1–4 produce nothing, exactly that fallback is
emitted. -/
theorem C7_insight_fallback :
    generateInsights [] [] = [goodProgressInsight] ∧
    goodProgressInsight.type = "info" ∧
    goodProgressInsight.title = "Good Progress" ∧
    goodProgressInsight.priority = "low" ∧
    (∀ (trips : List Trip) (obdData : List OBDSample),
      ruleInsights trips obdData = [] →
      generateInsights trips obdData = [goodProgressInsight]) := by
  refine ⟨rfl, rfl, rfl, rfl, ?_⟩
  intro trips obdData h
  simp [generateInsights, h]

/-- C7 witness: the fallback rule applied to the empty inputs. -/
theorem C7_witness : generateInsights [] [] = [goodProgressInsight] :=
  C7_insight_fallback.2.2.2.2 [] [] rfl

/-! ## C8 -/

/-- C8: for sorted input and a supported non-raw token, the emitted buckets
are strictly ascending by timestamp, each bucket value is the mean
(sum/count) of its contributing values, and every bucket has contributing
samples. -/
theorem C8_sorted_buckets (interval : String)
    (hint : interval ∈ (["1h", "6h", "1d", "1w"] : List String))
    (data : List Sample)
    (hsorted : data.Pairwise (fun p q => p.timestamp ≤ q.timestamp)) :
    ((groupTrendsByInterval interval data).Pairwise
      (fun b b' => b.timestamp < b'.timestamp)) ∧
    (∀ b ∈ groupTrendsByInterval interval data,
      b.value = (bucketValues (trendIntervalKey interval) data b.timestamp).sum
        / ((bucketValues (trendIntervalKey interval) data b.timestamp).length : ℚ) ∧
      bucketValues (trendIntervalKey interval) data b.timestamp ≠ []) := by
  have hraw : interval ≠ "raw" := by
    simp only [List.mem_cons, List.mem_singleton] at hint
    rcases hint with rfl | rfl | rfl | hint
    · decide
    · decide
    · decide
    · simp at hint
      subst hint
      decide
  rw [groupTrendsByInterval, if_neg hraw]
  refine ⟨groupByKey_sorted _ (fun h => trendIntervalKey_mono interval h) data hsorted, ?_⟩
  intro b hb
  obtain ⟨-, -, hvne, hval⟩ := groupByKey_mem _ _ hb
  exact ⟨hval, hvne⟩

/-- C8 witness: sorted output on the two-sample hourly input. -/
theorem C8_witness :
    ((groupTrendsByInterval "1h" hourSamples).Pairwise
      (fun b b' => b.timestamp < b'.timestamp)) ∧
    (∀ b ∈ groupTrendsByInterval "1h" hourSamples,
      b.value = (bucketValues (trendIntervalKey "1h") hourSamples b.timestamp).sum
        / ((bucketValues (trendIntervalKey "1h") hourSamples b.timestamp).length : ℚ) ∧
      bucketValues (trendIntervalKey "1h") hourSamples b.timestamp ≠ []) :=
  C8_sorted_buckets "1h" (by decide) hourSamples (by decide)

/-! ## C9 -/

/-- C9: the 1h key floors every timestamp to the start of its UTC hour
(a multiple of 3600000 ms at distance below one hour under the timestamp),
and the 10:15/10:45 scenario aggregates to the single bucket with start
10:00, mean 15 and count 2 under both route helpers. -/
theorem C9_hourly_alignment :
    (∀ t : Int, key1h t ≤ t ∧ t < key1h t + 3600000 ∧ (key1h t) % 3600000 = 0) ∧
    groupTrendsByInterval "1h" hourSamples = [⟨36000000, 15, some 2⟩] ∧
    groupDataByInterval "1h" hourSamples = [⟨36000000, 15, some 2⟩] := by
  refine ⟨?_, ?_, ?_⟩
  · intro t
    refine ⟨floorMult_le (by norm_num) 0 t, lt_floorMult_add (by norm_num) 0 t, ?_⟩
    have h := floorMult_emod 3600000 0 t
    simpa [key1h] using h
  · have hk : firstKeys [trendIntervalKey "1h" 36900000, trendIntervalKey "1h" 38700000]
        = [36000000] := rfl
    norm_num [hourSamples, groupTrendsByInterval, groupByKey, hk, bucketFor,
      show bucketValues (trendIntervalKey "1h") [⟨36900000, 10⟩, ⟨38700000, 20⟩] 36000000
        = [10, 20] from rfl,
      show ¬ ("1h" = "raw") from by decide]
  · have hk : firstKeys [obdIntervalKey "1h" 36900000, obdIntervalKey "1h" 38700000]
        = [36000000] := rfl
    norm_num [hourSamples, groupDataByInterval, groupByKey, hk, bucketFor,
      show bucketValues (obdIntervalKey "1h") [⟨36900000, 10⟩, ⟨38700000, 20⟩] 36000000
        = [10, 20] from rfl,
      show ¬ ("1h" = "raw") from by decide]

/-! ## C10 -/

theorem ecoScoreInsights_length_le (trips : List Trip) :
    (ecoScoreInsights trips).length ≤ 1 := by
  simp only [ecoScoreInsights]
  split_ifs <;> simp

theorem efficiencyInsights_length_le (trips : List Trip) :
    (efficiencyInsights trips).length ≤ 1 := by
  simp only [efficiencyInsights]
  split_ifs <;> simp

theorem highRPMInsights_length_le (obdData : List OBDSample) :
    (highRPMInsights obdData).length ≤ 1 := by
  simp only [highRPMInsights]
  split_ifs <;> simp

theorem aggressiveThrottleInsights_length_le (obdData : List OBDSample) :
    (aggressiveThrottleInsights obdData).length ≤ 1 := by
  simp only [aggressiveThrottleInsights]
  split_ifs <;> simp

/-- C10: the generator never returns an empty list and never more than four
insights; the eco-score rule itself contributes at most one insight (its
warning and success branches are mutually exclusive). -/
theorem C10_insight_count (trips : List Trip) (obdData : List OBDSample) :
    1 ≤ (generateInsights trips obdData).length ∧
      (generateInsights trips obdData).length ≤ 4 ∧
      (ecoScoreInsights trips).length ≤ 1 := by
  have h1 := ecoScoreInsights_length_le trips
  have h2 := efficiencyInsights_length_le trips
  have h3 := highRPMInsights_length_le obdData
  have h4 := aggressiveThrottleInsights_length_le obdData
  have hr : (ruleInsights trips obdData).length ≤ 4 := by
    rw [ruleInsights]
    simp only [List.length_append]
    omega
  refine ⟨?_, ?_, h1⟩
  · simp only [generateInsights]
    split_ifs with h
    · simp
    · omega
  · simp only [generateInsights]
    split_ifs with h
    · simp
    · exact hr
